import Mathlib

/-!
Shallow embedding of the Product Hunt crawl core of this repository:

* `src/scrapers/producthunt.py` — the catalog client (`ProductHuntScraper`)
  with its adaptive complexity budgeting, halving on cost-limit errors, and
  fail-soft degradation of every upstream failure to an empty terminal page;
* `src/database.py` — the record repository (`Database`): company and
  product rows deduplicated by name, and the per-date scrape-progress
  checkpoint store;
* `src/core/scrape_ph.py` — the crawl controller
  (`scrape_producthunt_only`, the spec's `runCrawl`) and the streamlined
  entry point (`scrape_producthunt_date_streamlined`).

Modelling conventions:
* Machine integers are `Nat`; Python floor division `//` on nonnegative
  ints is `Nat` division.  The one float computation in the client
  (`total / count / batch` followed by `int(...)` truncation) is embedded
  as the exact rational floor, which `Nat` division computes since the
  values are nonnegative.
* Python `None` is `Option.none`; dict `.get` with a default is `Option.getD`.
* Fallible persistence calls return `Except DB ...`; the `.error` payload
  is the database state visible after the raised exception (committed rows
  survive, the failed statement is rolled back, matching the
  commit-per-operation structure of `src/database.py`).
* SQLAlchemy faults are injected through the ghost fields `DB.failAt` /
  `DB.writeCount`: the write attempt whose index equals `failAt` raises.
  A run with `failAt = none` is a fault-free run.
* The network is an input: each catalog request consumes one `Upstream`
  value describing the raw upstream outcome for that request.  The crawl
  controller consumes a list of already-decoded pages, one per loop
  iteration; past the end of the list the upstream yields empty pages
  (exactly what the real client returns once a date is exhausted).
* Audit columns (created_by, timestamps) and logging are omitted: no claim
  mentions them and the control flow never reads them.
-/

namespace JC

/-! ## Raw upstream response shape (GraphQL JSON), `src/scrapers/producthunt.py` -/

/-- One `node` of a `posts` edge as read by `get_products_by_date`
(lines 212-234).  Every field is read with `.get`, hence optional; the
`thumbnail` sub-dict collapses to its only read field `url`. -/
structure Node where
  id : Option String
  name : Option String
  slug : Option String
  url : Option String
  tagline : Option String
  description : Option String
  votesCount : Option Nat
  createdAt : Option String
  website : Option String
  thumbnailUrl : Option String
  topics : List String
deriving DecidableEq

/-- `pageInfo` as read with `.get` (lines 202-204). -/
structure PageInfo where
  endCursor : Option String
  hasNextPage : Option Bool
deriving DecidableEq

/-- `data.posts` as read by the client (lines 198-200). -/
structure PostsData where
  edges : List Node
  pageInfo : Option PageInfo
deriving DecidableEq

/-- The outcome of one upstream HTTP request, seen from inside the
client's `try` block.  `exn` covers every exception raised inside the
block (transport failure after retry exhaustion, non-2xx status, JSON
decode errors, missing required dict keys while building products);
`response` is a decoded JSON body: the optional `errors` array (collapsed
to the messages read via `error.get("message", "")`) and the optional
`data.posts` object (`data.get("data", {}).get("posts", {})`). -/
inductive Upstream where
  | exn : Upstream
  | response (errors : Option (List String)) (posts : Option PostsData) : Upstream
deriving DecidableEq

/-! Substring containment, for the Python tests
`"complexity" in message` / `"limit" in message`. -/

/-- `listStartsWith s t` : `t` is an initial segment of `s`. -/
def listStartsWith : List Char → List Char → Bool
  | _, [] => true
  | [], _ :: _ => false
  | a :: as, b :: bs => a == b && listStartsWith as bs

/-- `listContainsSub s t` : `t` occurs contiguously inside `s`. -/
def listContainsSub (s sub : List Char) : Bool :=
  match s with
  | [] => sub.isEmpty
  | _ :: t => listStartsWith s sub || listContainsSub t sub

/-- Python `str.lower`, character by character. -/
def strLower (s : String) : List Char :=
  s.toList.map Char.toLower

/-- The cost-limit detection on a GraphQL error message
(`producthunt.py` line 189): lower-cased message contains
`"complexity"` or `"limit"`. -/
def isCostLimitMsg (m : String) : Bool :=
  listContainsSub (strLower m) "complexity".toList
    || listContainsSub (strLower m) "limit".toList

/-! ## Catalog client adaptive state, `ProductHuntScraper` -/

/-- `self.max_complexity` (line 25). -/
def max_complexity : Nat := 500000

/-- `self.safe_complexity_limit` (line 26). -/
def safe_complexity_limit : Nat := 450000

/-- The mutable adaptive fields of `ProductHuntScraper`.  The rate-limiter
timestamp is real time and does not influence any returned value, so it is
not carried. -/
structure PHState where
  total_complexity_used : Nat
  request_count : Nat
  complexity_per_product : Nat
  max_batch_size : Nat
deriving DecidableEq

/-- `ProductHuntScraper.__init__` (lines 24-38): the cost estimate starts
at 4000 and the batch size at `min(50, safe_complexity_limit // 4000)`. -/
def initPHState : PHState :=
  { total_complexity_used := 0
    request_count := 0
    complexity_per_product := 4000
    max_batch_size := min 50 (safe_complexity_limit / 4000) }

/-- `ProductHuntScraper._optimize_batch_size` (lines 70-91).
`int(total / count / max(1, batch))` is the exact floor
`total / (count * max 1 batch)` in `Nat` division (all values
nonnegative; the two Python divisions are true divisions, only the final
`int(...)` truncates).  Python would raise `ZeroDivisionError` on
`safe // 0` if the recomputed estimate were 0; no claim exercises that
corner and `Nat` division then yields 0, clamped to 1 below.
Assigning `max_batch_size` only when different (line 88) equals always
assigning the clamped value. -/
def optimize_batch_size (s : PHState) : PHState :=
  if s.request_count < 3 then s
  else
    let cpp := s.total_complexity_used / (s.request_count * max 1 s.max_batch_size)
    let optimal := max 1 (min 100 (safe_complexity_limit / cpp))
    { s with complexity_per_product := cpp, max_batch_size := optimal }

/-- `ProductHuntScraper._track_complexity_usage` (lines 52-68): record the
estimated cost of the page, bump the request counter, and re-optimize on
every 5th request. -/
def track_complexity_usage (s : PHState) (products_count : Nat) : PHState :=
  let s := { s with
    total_complexity_used :=
      s.total_complexity_used + products_count * s.complexity_per_product
    request_count := s.request_count + 1 }
  if s.request_count % 5 == 0 then optimize_batch_size s else s

/-- A product dict as built by `get_products_by_date` (lines 222-234). -/
structure Entry where
  id : Option String
  name : Option String
  slug : Option String
  tagline : Option String
  description : String
  votes_count : Option Nat
  created_at : Option String
  website : Option String
  product_hunt_url : Option String
  thumbnail_url : Option String
  topics : List String
deriving DecidableEq

/-- Lines 222-234: one edge node to one product dict
(`description` defaults to `""` via `or ""`). -/
def nodeToProduct (n : Node) : Entry :=
  { id := n.id
    name := n.name
    slug := n.slug
    tagline := n.tagline
    description := n.description.getD ""
    votes_count := n.votesCount
    created_at := n.createdAt
    website := n.website
    product_hunt_url := n.url
    thumbnail_url := n.thumbnailUrl
    topics := n.topics }

/-- The dict returned by `get_products_by_date`. -/
structure ScrapeResult where
  products : List Entry
  endCursor : Option String
  hasNextPage : Bool
deriving DecidableEq

/-- `ProductHuntScraper.get_products_by_date` (lines 105-247), one call.
The request itself (query text, `batch_size` = `limit` when given else
`max_batch_size`, the cursor variable, and the rate-limit sleep) only
shapes the outbound HTTP call, whose outcome is the `u : Upstream` input;
none of it feeds back into the returned value or state.

* any exception inside the `try` block (line 245) returns the empty
  terminal page, state untouched;
* a body carrying an `errors` key (lines 183-196) halves
  `max_batch_size` once per error whose message mentions
  complexity/limit (floor 1, only when currently above 1) and returns the
  empty terminal page;
* otherwise missing `data`/`posts`/`pageInfo` keys degrade to defaults;
  an empty `edges` list returns no products with `hasNextPage = False`
  (passing through whatever `endCursor` was present, lines 206-208);
* a non-empty page is converted to product dicts and its estimated cost
  tracked (lines 210-243). -/
def get_products_by_date (s : PHState) (_limit : Option Nat)
    (_after_cursor : Option String) (u : Upstream) : PHState × ScrapeResult :=
  match u with
  | .exn => (s, { products := [], endCursor := none, hasNextPage := false })
  | .response errors posts =>
    match errors with
    | some errs =>
      let newBatch := errs.foldl (fun b m =>
        if isCostLimitMsg m then (if b > 1 then max 1 (b / 2) else b) else b)
        s.max_batch_size
      let s := { s with max_batch_size := newBatch }
      (s, { products := [], endCursor := none, hasNextPage := false })
    | none =>
      let posts_data := posts.getD { edges := [], pageInfo := none }
      let page_info := posts_data.pageInfo.getD { endCursor := none, hasNextPage := none }
      let end_cursor := page_info.endCursor
      let has_next_page := page_info.hasNextPage.getD false
      if posts_data.edges.isEmpty then
        (s, { products := [], endCursor := end_cursor, hasNextPage := false })
      else
        let products := posts_data.edges.map nodeToProduct
        let s := track_complexity_usage s products.length
        (s, { products := products, endCursor := end_cursor, hasNextPage := has_next_page })

/-! ## Record repository and checkpoint store, `src/database.py` -/

/-- A `companies` row (`src/models/models.py` lines 12-22); `is_signal`
defaults to false on creation.  Audit columns omitted. -/
structure CompanyRow where
  id : Nat
  company_name : Option String
  is_signal : Bool
deriving DecidableEq

/-- A `products` row, restricted to the columns this core writes or reads
(`src/models/models.py` lines 24-53, `Database.insert_product`).  The
`product_metadata` JSON is the product dict wrapped by the controller
under the `product_hunt` key; the wrapper adds no information, so the
field carries the `Entry` itself. -/
structure ProductRow where
  id : Nat
  company_id : Nat
  product_name : Option String
  product_metadata : Entry
  launch_date : String
  twitter_link : Option String
  linkedin_link : Option String
  is_social_media : Bool
  status : Nat
deriving DecidableEq

/-- A `scrape_progress` row (`src/models/models.py` lines 60-66):
per-date cursor and continuation flag; `has_next_page` defaults true. -/
structure ProgressRow where
  date : String
  last_cursor : Option String
  has_next_page : Bool
deriving DecidableEq

/-- The visible database state.  `nextCompanyId` / `nextProductId` model
the primary-key sequences.  `failAt` / `writeCount` are ghost fault
injection: the row-creating commit whose index equals `failAt` raises
`SQLAlchemyError` (re-raised as `Exception` by `src/database.py`); with
`failAt = none` every persistence call succeeds. -/
structure DB where
  companies : List CompanyRow
  products : List ProductRow
  progress : List ProgressRow
  nextCompanyId : Nat
  nextProductId : Nat
  failAt : Option Nat
  writeCount : Nat
deriving DecidableEq

/-- `query(Company).filter_by(company_name=...).first()`. -/
def findCompanyByName (db : DB) (name : Option String) : Option CompanyRow :=
  db.companies.find? (fun c => c.company_name == name)

/-- `query(Company).filter(Company.id == company_id).first()`. -/
def findCompanyById (db : DB) (cid : Nat) : Option CompanyRow :=
  db.companies.find? (fun c => c.id == cid)

/-- `query(Product).filter(Product.product_name == name).first()`. -/
def findProductByName (db : DB) (name : Option String) : Option ProductRow :=
  db.products.find? (fun p => p.product_name == name)

/-- Whether the next row-creating commit raises (ghost fault schedule). -/
def writeFails (db : DB) : Bool :=
  db.failAt == some db.writeCount

/-- `Database.get_or_create_company` (`src/database.py` lines 53-69):
exact-name lookup, create with default `is_signal = False` when absent;
a `SQLAlchemyError` rolls the add back and re-raises. -/
def get_or_create_company (db : DB) (company_name : Option String) :
    Except DB (DB × Nat) :=
  match findCompanyByName db company_name with
  | some c => .ok (db, c.id)
  | none =>
    if writeFails db then .error db
    else
      let c : CompanyRow :=
        { id := db.nextCompanyId, company_name := company_name, is_signal := false }
      .ok ({ db with
              companies := db.companies ++ [c]
              nextCompanyId := db.nextCompanyId + 1
              writeCount := db.writeCount + 1 }, c.id)

/-- `Database.insert_product` (`src/database.py` lines 71-99): always
creates with `status = 0`; `is_social_media = bool(twitter or linkedin)`;
a `SQLAlchemyError` rolls the add back and re-raises. -/
def insert_product (db : DB) (company_id : Nat) (product_name : Option String)
    (metadata : Entry) (launch_date : String)
    (twitter_link linkedin_link : Option String) : Except DB (DB × Nat) :=
  if writeFails db then .error db
  else
    let p : ProductRow :=
      { id := db.nextProductId
        company_id := company_id
        product_name := product_name
        product_metadata := metadata
        launch_date := launch_date
        twitter_link := twitter_link
        linkedin_link := linkedin_link
        is_social_media := twitter_link.isSome || linkedin_link.isSome
        status := 0 }
    .ok ({ db with
            products := db.products ++ [p]
            nextProductId := db.nextProductId + 1
            writeCount := db.writeCount + 1 }, p.id)

/-- `query(ScrapeProgress).filter_by(date=...).first()`. -/
def findProgress (db : DB) (date : String) : Option ProgressRow :=
  db.progress.find? (fun r => r.date == date)

/-- `Database.get_or_create_scrape_progress` (lines 104-111): returns the
existing row or creates one with `last_cursor = None`,
`has_next_page = True` (the model default). -/
def get_or_create_scrape_progress (db : DB) (date : String) : DB × ProgressRow :=
  match findProgress db date with
  | some r => (db, r)
  | none =>
    let r : ProgressRow := { date := date, last_cursor := none, has_next_page := true }
    ({ db with progress := db.progress ++ [r] }, r)

/-- Overwrite cursor/flag on the first row matching `date` (dates are the
primary key, so at most one row matches). -/
def setProgress : List ProgressRow → String → Option String → Bool → List ProgressRow
  | [], _, _, _ => []
  | r :: rs, date, cur, hnp =>
    if r.date == date then
      { r with last_cursor := cur, has_next_page := hnp } :: rs
    else r :: setProgress rs date cur hnp

/-- `Database.update_scrape_progress` (lines 113-121): overwrites an
existing checkpoint; raises (`.error`) when no row exists for `date`. -/
def update_scrape_progress (db : DB) (date : String) (last_cursor : Option String)
    (has_next_page : Bool) : Except DB DB :=
  match findProgress db date with
  | some _ => .ok { db with progress := setProgress db.progress date last_cursor has_next_page }
  | none => .error db

/-! ## Crawl controller, `src/core/scrape_ph.py` -/

/-- Python truthiness of the optional `limit` argument: `None` and `0`
are falsy (`limit if limit else None`, `if limit and ...`). -/
def pyTruthy (n : Option Nat) : Bool :=
  match n with
  | none => false
  | some k => k != 0

/-- The per-entry body of the controller loop
(`src/core/scrape_ph.py` lines 72-102, identically lines 159-188):
1. an existing record with this exact name short-circuits — its id is
   appended and nothing else happens;
2. otherwise the company (same name as the product) is looked up or
   created;
3. `if company and company.is_signal` — a flagged company drops the entry
   silently (no insert, no id);
4. otherwise the raw entry is inserted as a new record (status 0) and the
   fresh id appended. -/
def processEntry (db : DB) (launch_date : String) (p : Entry) (ids : List Nat) :
    Except DB (DB × List Nat) :=
  match findProductByName db p.name with
  | some existing_product => .ok (db, ids ++ [existing_product.id])
  | none =>
    let company_name := p.name
    match get_or_create_company db company_name with
    | .error d => .error d
    | .ok (db, company_id) =>
      if (findCompanyById db company_id).any (fun c => c.is_signal) then
        .ok (db, ids)
      else
        match insert_product db company_id p.name p launch_date none none with
        | .error d => .error d
        | .ok (db, product_id) => .ok (db, ids ++ [product_id])

/-- The `for idx, p in enumerate(products, 1)` loop over one page. -/
def processProducts : DB → String → List Entry → List Nat → Except DB (DB × List Nat)
  | db, _, [], ids => .ok (db, ids)
  | db, launch_date, p :: ps, ids =>
    match processEntry db launch_date p ids with
    | .error d => .error d
    | .ok (db, ids) => processProducts db launch_date ps ids

/-- The `while True` pagination loop of `scrape_producthunt_only`
(lines 47-121).  `fetchSeq` is the sequence of pages the catalog client
returns, one per iteration; past its end the upstream yields the empty
terminal page (the client's behavior once nothing is left), which the
loop handles through its no-products branch (lines 64-67).  After a
non-empty page: the page's records are written first, then the checkpoint
is advanced to the page's `(endCursor, hasNextPage)` (line 107), then the
limit and continuation checks run (lines 110-117). -/
def crawlLoop : List ScrapeResult → DB → String → Option Nat → Nat → List Nat →
    Except DB (DB × List Nat)
  | [], db, date, _, _, ids =>
    (match update_scrape_progress db date none false with
     | .error d => .error d
     | .ok db => .ok (db, ids))
  | page :: rest, db, date, limit, total_fetched, ids =>
    if page.products.isEmpty then
      match update_scrape_progress db date none false with
      | .error d => .error d
      | .ok db => .ok (db, ids)
    else
      match processProducts db date page.products ids with
      | .error d => .error d
      | .ok (db, ids) =>
        let total_fetched := total_fetched + page.products.length
        match update_scrape_progress db date page.endCursor page.hasNextPage with
        | .error d => .error d
        | .ok db =>
          if pyTruthy limit ∧ limit.getD 0 ≤ total_fetched then .ok (db, ids)
          else if !page.hasNextPage then
            match update_scrape_progress db date none false with
            | .error d => .error d
            | .ok db => .ok (db, ids)
          else crawlLoop rest db date limit total_fetched ids

/-- `scrape_producthunt_only` (`src/core/scrape_ph.py` lines 23-134), the
spec's `runCrawl(date, limit)`.  The checkpoint is created or read; a
stored `has_next_page = False` returns immediately with no fetch and no
write.  The stored cursor and the `limit`-derived batch size only shape
the outbound requests, whose decoded results are the `fetchSeq` input. -/
def scrape_producthunt_only (fetchSeq : List ScrapeResult) (date_str : String)
    (limit : Option Nat) (db : DB) : Except DB (DB × List Nat) :=
  let init := get_or_create_scrape_progress db date_str
  if !init.2.has_next_page then .ok (init.1, [])
  else crawlLoop fetchSeq init.1 date_str limit 0 []

/-! ## Streamlined path: `scrape_all_products_for_date` and
`scrape_producthunt_date_streamlined` -/

/-- The `while has_next_page` loop of
`ProductHuntScraper.scrape_all_products_for_date`
(`src/scrapers/producthunt.py` lines 249-305).  The `upstream` oracle
gives the raw outcome of the `reqIdx`-th HTTP request.  `log` is ghost
instrumentation recording the cursor sent with every request.  The
Python loop increments `page_num` only on a non-empty page and breaks as
soon as `page_num` exceeds 1000 (lines 297-302), so `fuel`, maintained as
`1001 - page_num`, bounds the recursion: the `fuel = 0` clause coincides
with the source's own page-cap break and is unreachable below the cap. -/
def scrapeAllAux (upstream : Nat → Upstream) (max_products : Option Nat) :
    Nat → PHState → Nat → List Entry → Option String → Bool → Nat →
    List (Option String) → PHState × List Entry × List (Option String)
  | 0, s, _, all, _, _, _, log => (s, all, log)
  | fuel + 1, s, reqIdx, all, cursor, has_next, page_num, log =>
    if !has_next then (s, all, log)
    else
      let batch_limit :=
        if page_num == 1 ∧ pyTruthy max_products ∧ max_products.getD 0 ≤ s.max_batch_size
        then max_products else none
      let step := get_products_by_date s batch_limit cursor (upstream reqIdx)
      let s := step.1
      let log := log ++ [cursor]
      let products := step.2.products
      let cursor := step.2.endCursor
      let has_next := step.2.hasNextPage
      if products.isEmpty then (s, all, log)
      else
        let all := all ++ products
        if pyTruthy max_products ∧ max_products.getD 0 ≤ all.length then
          (s, all.take (max_products.getD 0), log)
        else
          let page_num := page_num + 1
          if page_num > 1000 then (s, all, log)
          else scrapeAllAux upstream max_products fuel s (reqIdx + 1) all cursor has_next page_num log

/-- `ProductHuntScraper.scrape_all_products_for_date` on a fresh scraper
instance, as `scrape_producthunt_date_streamlined` uses it: pagination
starts from `cursor = None`, `has_next_page = True`, `page_num = 1`
(lines 261-264); no date checkpoint is consulted anywhere. -/
def scrape_all_products_for_date (upstream : Nat → Upstream)
    (max_products : Option Nat) : PHState × List Entry × List (Option String) :=
  scrapeAllAux upstream max_products 1000 initPHState 0 [] none true 1 []

/-- `scrape_producthunt_date_streamlined` (`src/core/scrape_ph.py`
lines 137-198): fetch everything through the client's own pagination,
then run the identical per-entry dedup/signal/insert body (lines 159-188
repeat lines 75-101 verbatim) over the collected list.  No scrape
progress row is read or written. -/
def scrape_producthunt_date_streamlined (upstream : Nat → Upstream)
    (date_str : String) (max_products : Option Nat) (db : DB) :
    Except DB (DB × List Nat) :=
  let all_products := (scrape_all_products_for_date upstream max_products).2.1
  if all_products.isEmpty then .ok (db, [])
  else processProducts db date_str all_products []

/-! ## Projections and concrete fixtures used by the theorems -/

/-- The database state visible after a run: the final state on success,
the state at the raised exception on failure. -/
def resDb (r : Except DB (DB × List Nat)) : DB :=
  match r with
  | .ok (d, _) => d
  | .error d => d

/-- The returned id list, when the run did not raise. -/
def resIds (r : Except DB (DB × List Nat)) : Option (List Nat) :=
  match r with
  | .ok (_, ids) => some ids
  | .error _ => none

/-- A catalog entry carrying only a name, as in the spec's concrete
scenarios. -/
def mkEntry (name : String) : Entry :=
  { id := none
    name := some name
    slug := none
    tagline := none
    description := ""
    votes_count := none
    created_at := none
    website := none
    product_hunt_url := none
    thumbnail_url := none
    topics := [] }

/-- An empty store with fresh key sequences and no fault injected. -/
def db0 : DB :=
  { companies := []
    products := []
    progress := []
    nextCompanyId := 1
    nextProductId := 1
    failAt := none
    writeCount := 0 }

/-- The two pages of the spec's concrete crawl scenario over
`2024-01-15`: page 1 = A, B with cursor `c1` and more to come;
page 2 = B, C, terminal. -/
def c1pages : List ScrapeResult :=
  [ { products := [mkEntry "A", mkEntry "B"], endCursor := some "c1", hasNextPage := true }
  , { products := [mkEntry "B", mkEntry "C"], endCursor := none, hasNextPage := false } ]

/-- The concrete scenario run: empty store, no limit. -/
def c1run : Except DB (DB × List Nat) :=
  scrape_producthunt_only c1pages "2024-01-15" none db0

/-- Pairwise-distinct primary keys among company rows. -/
def distinctIds : List CompanyRow → Bool
  | [] => true
  | c :: rest => rest.all (fun d => !(d.id == c.id)) && distinctIds rest

/-- Database well-formedness: company primary keys are pairwise distinct
and below the key sequence — what a relational primary key with an
autoincrement sequence guarantees. -/
def DBWF (db : DB) : Bool :=
  distinctIds db.companies && db.companies.all (fun c => c.id < db.nextCompanyId)

/-- The upstream outcomes the spec classifies as failures: an exception
inside the request (transport failure after retry exhaustion, bad status,
decode errors), a GraphQL `errors` body (cost-limit errors included), or
a response with no entries / missing expected fields. -/
def isFailureOutcome (u : Upstream) : Bool :=
  match u with
  | .exn => true
  | .response errors posts =>
    errors.isSome || ((posts.getD { edges := [], pageInfo := none }).edges).isEmpty

/-- The client state after `n` successful pages of 50 entries each,
starting from a fresh scraper. -/
def trackIter : Nat → PHState
  | 0 => initPHState
  | n + 1 => track_complexity_usage (trackIter n) 50

/-- An empty store whose very first row-creating commit raises. -/
def dbF : DB := { db0 with failAt := some 0 }

/-- `dbF` right after the checkpoint for `2024-01-15` has been created. -/
def dbF1 : DB :=
  { dbF with progress := [{ date := "2024-01-15", last_cursor := none, has_next_page := true }] }

/-- A one-entry page claiming more pages follow. -/
def c2page : ScrapeResult :=
  { products := [mkEntry "X"], endCursor := none, hasNextPage := true }

/-- An already-stored record named B, used by the dedup witnesses. -/
def rowB : ProductRow :=
  { id := 7, company_id := 1, product_name := some "B", product_metadata := mkEntry "B",
    launch_date := "2024-01-14", twitter_link := none, linkedin_link := none,
    is_social_media := false, status := 0 }

/-- A store where record B exists and its company has since been flagged
signal. -/
def dbC3 : DB :=
  { db0 with
    companies := [{ id := 1, company_name := some "B", is_signal := true }]
    products := [rowB]
    nextCompanyId := 2
    nextProductId := 8 }

/-- A store whose checkpoint for `2024-01-15` is already exhausted. -/
def dbC4 : DB :=
  { db0 with progress := [{ date := "2024-01-15", last_cursor := some "k", has_next_page := false }] }

/-- A store holding a signal-flagged company named S and no records. -/
def dbS : DB :=
  { db0 with
    companies := [{ id := 1, company_name := some "S", is_signal := true }]
    nextCompanyId := 2 }

/-- A store holding an unflagged company named T and no records. -/
def dbNS : DB :=
  { db0 with
    companies := [{ id := 1, company_name := some "T", is_signal := false }]
    nextCompanyId := 2 }

/-! ## Helper lemmas -/

/-- The database visible after a company lookup-or-create, on either
outcome. -/
def resDbN (r : Except DB (DB × Nat)) : DB :=
  match r with
  | .ok (d, _) => d
  | .error d => d

theorem gocc_progress (db : DB) (n : Option String) :
    (resDbN (get_or_create_company db n)).progress = db.progress := by
  unfold get_or_create_company
  split
  · rfl
  · split
    · rfl
    · rfl

theorem insert_product_progress (db : DB) (cid : Nat) (n : Option String)
    (m : Entry) (ld : String) (tw li : Option String) :
    (resDbN (insert_product db cid n m ld tw li)).progress = db.progress := by
  unfold insert_product
  split
  · rfl
  · rfl

/-- Processing one entry never touches the checkpoint store, whether it
succeeds or raises. -/
theorem processEntry_progress (db : DB) (ld : String) (p : Entry) (ids : List Nat) :
    (resDb (processEntry db ld p ids)).progress = db.progress := by
  unfold processEntry
  split
  · rfl
  · dsimp only
    split
    next d heq =>
      have h := gocc_progress db p.name
      rw [heq] at h
      exact h
    next db1 cid heq =>
      have h1 := gocc_progress db p.name
      rw [heq] at h1
      split
      · exact h1
      · split
        next d heq2 =>
          have h2 := insert_product_progress db1 cid p.name p ld none none
          rw [heq2] at h2
          exact h2.trans h1
        next db2 pid heq2 =>
          have h2 := insert_product_progress db1 cid p.name p ld none none
          rw [heq2] at h2
          exact h2.trans h1

/-- Processing a page of entries never touches the checkpoint store. -/
theorem processProducts_progress (ps : List Entry) (db : DB) (ld : String)
    (ids : List Nat) :
    (resDb (processProducts db ld ps ids)).progress = db.progress := by
  induction ps generalizing db ids with
  | nil => rfl
  | cons p ps ih =>
    unfold processProducts
    split
    next d heq =>
      have h := processEntry_progress db ld p ids
      rw [heq] at h
      exact h
    next db1 ids1 heq =>
      have h := processEntry_progress db ld p ids
      rw [heq] at h
      exact (ih db1 ids1).trans h

/-- With pairwise-distinct ids, looking a member row up by its own id
finds exactly that row. -/
theorem find_distinct (l : List CompanyRow) (c : CompanyRow)
    (hd : distinctIds l = true) (hc : c ∈ l) :
    l.find? (fun x => x.id == c.id) = some c := by
  induction l with
  | nil => cases hc
  | cons a l ih =>
    unfold distinctIds at hd
    rw [Bool.and_eq_true] at hd
    obtain ⟨hall, hdist⟩ := hd
    rcases List.mem_cons.mp hc with rfl | hmem
    · simp [List.find?]
    · have hne : a.id ≠ c.id := by
        have h := List.all_eq_true.mp hall c hmem
        simp only [Bool.not_eq_true', beq_eq_false_iff_ne, ne_eq] at h
        exact fun hx => h hx.symm
      have hne2 : (a.id == c.id) = false := by
        simp [hne]
      rw [List.find?_cons, hne2]
      exact ih hdist hmem

/-- Appending a row with a fresh id and looking it up by that id finds
the appended row. -/
theorem find_appended_fresh (l : List CompanyRow) (c : CompanyRow)
    (h : ∀ a ∈ l, a.id ≠ c.id) :
    (l ++ [c]).find? (fun x => x.id == c.id) = some c := by
  induction l with
  | nil => simp [List.find?]
  | cons a l ih =>
    have hne : (a.id == c.id) = false := by
      simp [h a (List.mem_cons_self a l)]
    rw [List.cons_append, List.find?_cons, hne]
    exact ih (fun x hx => h x (List.mem_cons_of_mem a hx))

/-- In a well-formed store, the by-id lookup right after a by-name hit
returns the same row — the controller's signal check reads the company it
just resolved. -/
theorem findById_after_name (db : DB) (n : Option String) (c : CompanyRow)
    (hwf : DBWF db = true) (h : findCompanyByName db n = some c) :
    findCompanyById db c.id = some c := by
  unfold DBWF at hwf
  rw [Bool.and_eq_true] at hwf
  have hc : c ∈ db.companies := List.mem_of_find?_eq_some h
  exact find_distinct db.companies c hwf.1 hc

/-- The ghost request log only ever grows: whatever the loop returns, the
log passed in stays an initial segment of the log returned. -/
theorem scrapeAllAux_log_extends (upstream : Nat → Upstream) (maxp : Option Nat) :
    ∀ (fuel : Nat) (s : PHState) (i : Nat) (all : List Entry) (cursor : Option String)
      (hn : Bool) (pn : Nat) (log : List (Option String)),
      ∃ t, (scrapeAllAux upstream maxp fuel s i all cursor hn pn log).2.2 = log ++ t := by
  intro fuel
  induction fuel with
  | zero =>
    intro s i all cursor hn pn log
    exact ⟨[], by simp [scrapeAllAux]⟩
  | succ fuel ih =>
    intro s i all cursor hn pn log
    unfold scrapeAllAux
    split
    · exact ⟨[], by simp⟩
    · dsimp only
      split <;>
        (split
         · exact ⟨[cursor], rfl⟩
         · split
           · exact ⟨[cursor], rfl⟩
           · split
             · exact ⟨[cursor], rfl⟩
             · obtain ⟨t, ht⟩ := ih _ (i + 1) _ _ _ (pn + 1) (log ++ [cursor])
               exact ⟨[cursor] ++ t, by rw [ht, List.append_assoc]⟩)

/-- Starting the loop with a non-empty ghost log leaves the log's first
entry in place. -/
theorem scrapeAllAux_head (upstream : Nat → Upstream) (maxp : Option Nat)
    (fuel : Nat) (s : PHState) (i : Nat) (all : List Entry) (cursor : Option String)
    (hn : Bool) (pn : Nat) (x : Option String) (xs : List (Option String)) :
    ((scrapeAllAux upstream maxp fuel s i all cursor hn pn (x :: xs)).2.2).head?
      = some x := by
  obtain ⟨t, ht⟩ := scrapeAllAux_log_extends upstream maxp fuel s i all cursor hn pn (x :: xs)
  rw [ht]
  simp

/-! ## Claim theorems -/

/-- C1, counterexample to the claim as stated.  On the spec's concrete
scenario (date 2024-01-15, page 1 = A, B with cursor c1 and more pages,
page 2 = B, C terminal, empty store, no limit, no signal companies) the
controller returns the id list [1, 2, 2, 3]: the duplicate B on page 2
appends the existing record's id again (line 79 of
`src/core/scrape_ph.py`), so the final id list has length 4, not 3. -/
theorem claim_c1_counterexample :
    resIds c1run = some [1, 2, 2, 3]
      ∧ (resIds c1run).map List.length ≠ some 3 := by
  constructor
  · rfl
  · decide

/-- C1, amended: the crawl over the concrete scenario creates exactly 3
records (A, B, C), returns the id list [1, 2, 2, 3] — length 4, every
occurrence of B mapping to the same id 2 — and leaves the date's
checkpoint with `hasMore = false`. -/
theorem claim_c1_amended :
    resIds c1run = some [1, 2, 2, 3]
      ∧ (resDb c1run).products.map (fun p => p.product_name)
          = [some "A", some "B", some "C"]
      ∧ findProgress (resDb c1run) "2024-01-15"
          = some { date := "2024-01-15", last_cursor := none, has_next_page := false } :=
  ⟨rfl, rfl, rfl⟩

/-- C3: an entry whose name matches a stored record short-circuits — the
existing id is appended and nothing else happens: the database is
returned untouched (no company lookup-or-create, no insert), before any
signal check; the statement quantifies over every store, including those
whose matching company has since been flagged signal. -/
theorem claim_c3_name_dedup_short_circuits :
    ∀ (db : DB) (launch_date : String) (p : Entry) (ids : List Nat) (ex : ProductRow),
      findProductByName db p.name = some ex →
      processEntry db launch_date p ids = .ok (db, ids ++ [ex.id]) := by
  intro db ld p ids ex h
  unfold processEntry
  rw [h]

/-- C3 witness: record B already exists (id 7) and its company is
flagged signal; the entry B still yields the stored id 7 and the store
is unchanged. -/
theorem claim_c3_witness :
    processEntry dbC3 "2024-01-15" (mkEntry "B") [] = .ok (dbC3, [7]) :=
  claim_c3_name_dedup_short_circuits dbC3 "2024-01-15" (mkEntry "B") [] rowB rfl

/-- C4: a date whose stored checkpoint already has `has_next_page =
false` makes the controller return `.ok (db, [])` for every fetch
sequence: the empty id list, a database identical to the input (no
record, company or checkpoint write), and a result independent of the
catalog client's pages — no fetch is consulted.  In particular the
exhausted flag survives every later run untouched. -/
theorem claim_c4_exhaustion_short_circuit :
    ∀ (fetchSeq : List ScrapeResult) (date : String) (limit : Option Nat)
      (db : DB) (pr : ProgressRow),
      findProgress db date = some pr →
      pr.has_next_page = false →
      scrape_producthunt_only fetchSeq date limit db = .ok (db, []) := by
  intro fs date limit db pr h hf
  unfold scrape_producthunt_only get_or_create_scrape_progress
  rw [h]
  simp [hf]

/-- C4 witness: an exhausted checkpoint for 2024-01-15 with a non-empty
candidate page and a limit; the run still returns the unchanged store
and no ids. -/
theorem claim_c4_witness :
    scrape_producthunt_only c1pages "2024-01-15" (some 5) dbC4 = .ok (dbC4, []) :=
  claim_c4_exhaustion_short_circuit c1pages "2024-01-15" (some 5) dbC4
    { date := "2024-01-15", last_cursor := some "k", has_next_page := false } rfl rfl

/-- C6: from the fresh client state (batch 50, estimate 4000, safe limit
450000), five successful pages of 50 entries leave the batch size at 50
through the first four requests, and the 5th request fires the
recalculation exactly once: the estimate is recomputed as the observed
average cost per request divided by the current batch size
(1000000 / 5 / 50 = 4000) and the batch size becomes
min(100, max(1, 450000 / 4000)) = 100. -/
theorem claim_c6_budget_adaptation :
    trackIter 5 = { total_complexity_used := 1000000, request_count := 5,
                    complexity_per_product := 4000, max_batch_size := 100 }
      ∧ (trackIter 1).max_batch_size = 50
      ∧ (trackIter 2).max_batch_size = 50
      ∧ (trackIter 3).max_batch_size = 50
      ∧ (trackIter 4).max_batch_size = 50
      ∧ (trackIter 5).complexity_per_product = 1000000 / (5 * 50)
      ∧ (trackIter 5).max_batch_size = min 100 (max 1 (safe_complexity_limit / 4000)) := by
  decide

/-- C7: a response carrying a cost-limit error message halves the batch
size with floor 1 and returns the empty terminal page; the record update
shows every other adaptive field (`total_complexity_used`,
`request_count`, `complexity_per_product`) unchanged.  The model consumes
exactly one upstream outcome per call, so no in-call retry occurs. -/
theorem claim_c7_cost_limit_halves_batch :
    ∀ (s : PHState) (limit : Option Nat) (cursor : Option String) (m : String)
      (posts : Option PostsData),
      isCostLimitMsg m = true →
      1 ≤ s.max_batch_size →
      get_products_by_date s limit cursor (.response (some [m]) posts) =
        ({ s with max_batch_size := max 1 (s.max_batch_size / 2) },
         { products := [], endCursor := none, hasNextPage := false }) := by
  intro s limit cursor m posts hm hb
  unfold get_products_by_date
  simp only [List.foldl, hm, if_true]
  have h : (if s.max_batch_size > 1 then max 1 (s.max_batch_size / 2) else s.max_batch_size)
      = max 1 (s.max_batch_size / 2) := by
    by_cases hc : s.max_batch_size > 1
    · rw [if_pos hc]
    · rw [if_neg hc]
      have h1 : s.max_batch_size = 1 := by omega
      rw [h1]
      decide
  rw [h]

/-- C7 witness: a fresh client receiving one complexity-limit error drops
its batch size from 50 to 25 and reports an empty terminal page. -/
theorem claim_c7_witness :
    get_products_by_date initPHState none none
        (.response (some ["complexity limit reached"]) none) =
      ({ initPHState with max_batch_size := max 1 (initPHState.max_batch_size / 2) },
       { products := [], endCursor := none, hasNextPage := false }) :=
  claim_c7_cost_limit_halves_batch initPHState none none "complexity limit reached" none
    (by decide) (by decide)

/-- C8: every upstream failure mode — an exception anywhere in the
request (transport failure after retry exhaustion, bad status, decode
error), a GraphQL error body (cost-limit included), or a response with
missing fields / no entries — yields an empty entry list with
`hasNextPage = false`.  The embedding is total by construction, mirroring
the source's catch-all `except` (line 245): no input makes the call
raise. -/
theorem claim_c8_failures_degrade_to_terminal_page :
    ∀ (s : PHState) (limit : Option Nat) (cursor : Option String) (u : Upstream),
      isFailureOutcome u = true →
      (get_products_by_date s limit cursor u).2.products = []
        ∧ (get_products_by_date s limit cursor u).2.hasNextPage = false := by
  intro s limit cursor u hu
  cases u with
  | exn => exact ⟨rfl, rfl⟩
  | response errors posts =>
    cases errors with
    | some errs => exact ⟨rfl, rfl⟩
    | none =>
      unfold isFailureOutcome at hu
      simp only [Option.isSome_none, Bool.false_or] at hu
      unfold get_products_by_date
      simp [hu]

/-- C8 witness: a raised request degrades to the empty terminal page. -/
theorem claim_c8_witness :
    (get_products_by_date initPHState none none .exn).2.products = []
      ∧ (get_products_by_date initPHState none none .exn).2.hasNextPage = false :=
  claim_c8_failures_degrade_to_terminal_page initPHState none none .exn rfl

/-- C2: the checkpoint update for a page runs only after that page's
record writes.  First conjunct, at an arbitrary loop state (so for any
page N): if a persistence write raises while the page's entries are being
processed, the loop — and hence `runCrawl`, by the second conjunct the
error is the controller's return value — surfaces exactly that error, and
the database at the exception still carries the checkpoint list held at
the start of the page, i.e. the cursor persisted after page N-1 (or the
initial checkpoint when N = 1); the next run therefore re-fetches page N
from that cursor. -/
theorem claim_c2_checkpoint_after_page_writes :
    (∀ (date : String) (limit : Option Nat) (prods : List Entry) (cur : Option String)
        (hnp : Bool) (rest : List ScrapeResult) (total : Nat) (ids : List Nat)
        (db db' : DB),
      processProducts db date prods ids = .error db' →
        crawlLoop ({ products := prods, endCursor := cur, hasNextPage := hnp } :: rest)
            db date limit total ids = .error db'
          ∧ db'.progress = db.progress)
    ∧ (∀ (fetchSeq : List ScrapeResult) (date : String) (limit : Option Nat) (db db' : DB),
      (get_or_create_scrape_progress db date).2.has_next_page = true →
      crawlLoop fetchSeq (get_or_create_scrape_progress db date).1 date limit 0 [] = .error db' →
        scrape_producthunt_only fetchSeq date limit db = .error db') := by
  constructor
  · intro date limit prods cur hnp rest total ids db db' herr
    cases prods with
    | nil => simp [processProducts] at herr
    | cons p ps =>
      constructor
      · unfold crawlLoop
        simp only [List.isEmpty_cons, Bool.false_eq_true, if_false]
        rw [herr]
      · have h := processProducts_progress (p :: ps) db date ids
        rw [herr] at h
        exact h
  · intro fetchSeq date limit db db' hnext hloop
    unfold scrape_producthunt_only
    dsimp only
    rw [hnext]
    simpa using hloop

/-- C2 witness: an empty store whose first commit raises, a one-entry
page: the loop raises before any checkpoint write and `runCrawl` returns
that error with the freshly created checkpoint untouched. -/
theorem claim_c2_witness :
    (crawlLoop [c2page] dbF1 "2024-01-15" none 0 [] = .error dbF1
      ∧ dbF1.progress = dbF1.progress)
    ∧ scrape_producthunt_only [c2page] "2024-01-15" none dbF = .error dbF1 := by
  have h1 := claim_c2_checkpoint_after_page_writes.1 "2024-01-15" none [mkEntry "X"]
    none true [] 0 [] dbF1 dbF1 rfl
  exact ⟨h1, claim_c2_checkpoint_after_page_writes.2 [c2page] "2024-01-15" none dbF dbF1
    rfl h1.1⟩

/-- C5: the signal-company policy for brand-new names, in a well-formed
store (distinct company keys below the sequence) with no fault injected
where a write occurs.  (1) a new-named entry whose company is already
flagged signal is silently dropped: the store is returned untouched and
no id is appended; (2) a new-named entry whose company exists unflagged
gets a record with status 0 and its fresh id appended; (3) likewise when
the company does not exist yet — it is created unflagged and the record
(status 0) is inserted and its id appended. -/
theorem claim_c5_signal_exclusion :
    (∀ (db : DB) (launch_date : String) (p : Entry) (ids : List Nat) (c : CompanyRow),
      DBWF db = true →
      findProductByName db p.name = none →
      findCompanyByName db p.name = some c →
      c.is_signal = true →
      processEntry db launch_date p ids = .ok (db, ids))
    ∧ (∀ (db : DB) (launch_date : String) (p : Entry) (ids : List Nat) (c : CompanyRow),
      DBWF db = true →
      findProductByName db p.name = none →
      findCompanyByName db p.name = some c →
      c.is_signal = false →
      db.failAt = none →
      processEntry db launch_date p ids =
        .ok ({ db with
                products := db.products ++
                  [{ id := db.nextProductId, company_id := c.id,
                     product_name := p.name, product_metadata := p,
                     launch_date := launch_date, twitter_link := none,
                     linkedin_link := none, is_social_media := false, status := 0 }]
                nextProductId := db.nextProductId + 1
                writeCount := db.writeCount + 1 },
             ids ++ [db.nextProductId]))
    ∧ (∀ (db : DB) (launch_date : String) (p : Entry) (ids : List Nat),
      DBWF db = true →
      findProductByName db p.name = none →
      findCompanyByName db p.name = none →
      db.failAt = none →
      processEntry db launch_date p ids =
        .ok ({ db with
                companies := db.companies ++
                  [{ id := db.nextCompanyId, company_name := p.name, is_signal := false }]
                products := db.products ++
                  [{ id := db.nextProductId, company_id := db.nextCompanyId,
                     product_name := p.name, product_metadata := p,
                     launch_date := launch_date, twitter_link := none,
                     linkedin_link := none, is_social_media := false, status := 0 }]
                nextCompanyId := db.nextCompanyId + 1
                nextProductId := db.nextProductId + 1
                writeCount := db.writeCount + 2 },
             ids ++ [db.nextProductId])) := by
  refine ⟨?_, ?_, ?_⟩
  · intro db ld p ids c hwf hnone hname hsig
    unfold processEntry
    rw [hnone]
    have hg : get_or_create_company db p.name = .ok (db, c.id) := by
      unfold get_or_create_company
      rw [hname]
    dsimp only
    rw [hg]
    dsimp only
    rw [findById_after_name db p.name c hwf hname]
    simp [Option.any, hsig]
  · intro db ld p ids c hwf hnone hname hsig hfail
    unfold processEntry
    rw [hnone]
    have hg : get_or_create_company db p.name = .ok (db, c.id) := by
      unfold get_or_create_company
      rw [hname]
    dsimp only
    rw [hg]
    dsimp only
    rw [findById_after_name db p.name c hwf hname]
    have hw : writeFails db = false := by
      simp [writeFails, hfail]
    simp [Option.any, hsig, insert_product, hw]
  · intro db ld p ids hwf hnone hname hfail
    unfold processEntry
    rw [hnone]
    have hw : writeFails db = false := by
      simp [writeFails, hfail]
    have hg : get_or_create_company db p.name =
        .ok ({ db with
                companies := db.companies ++
                  [{ id := db.nextCompanyId, company_name := p.name, is_signal := false }]
                nextCompanyId := db.nextCompanyId + 1
                writeCount := db.writeCount + 1 }, db.nextCompanyId) := by
      unfold get_or_create_company
      rw [hname]
      simp [hw]
    dsimp only
    rw [hg]
    have hfind : findCompanyById
        { db with
            companies := db.companies ++
              [{ id := db.nextCompanyId, company_name := p.name, is_signal := false }]
            nextCompanyId := db.nextCompanyId + 1
            writeCount := db.writeCount + 1 } db.nextCompanyId =
        some { id := db.nextCompanyId, company_name := p.name, is_signal := false } := by
      unfold findCompanyById
      apply find_appended_fresh db.companies
        { id := db.nextCompanyId, company_name := p.name, is_signal := false }
      intro a ha
      unfold DBWF at hwf
      rw [Bool.and_eq_true] at hwf
      have hb := List.all_eq_true.mp hwf.2 a ha
      have hlt : a.id < db.nextCompanyId := of_decide_eq_true hb
      show a.id ≠ db.nextCompanyId
      omega
    dsimp only
    rw [hfind]
    have hw2 : writeFails { db with
        companies := db.companies ++
          [{ id := db.nextCompanyId, company_name := p.name, is_signal := false }]
        nextCompanyId := db.nextCompanyId + 1
        writeCount := db.writeCount + 1 } = false := by
      simp [writeFails, hfail]
    simp [Option.any, insert_product, hw2]

/-- C5 witness, one concrete instance per conjunct: (1) a brand-new
entry S whose company is flagged signal is dropped with the store
untouched; (2) a brand-new entry T whose company exists unflagged
becomes record 1 with status 0, id appended; (3) a brand-new entry N
with no company yet creates company 1 and record 1 with status 0, id
appended. -/
theorem claim_c5_witness :
    processEntry dbS "2024-01-15" (mkEntry "S") [] = .ok (dbS, [])
      ∧ processEntry dbNS "2024-01-15" (mkEntry "T") [] =
          .ok ({ dbNS with
                  products := dbNS.products ++
                    [{ id := 1, company_id := 1, product_name := some "T",
                       product_metadata := mkEntry "T", launch_date := "2024-01-15",
                       twitter_link := none, linkedin_link := none,
                       is_social_media := false, status := 0 }]
                  nextProductId := 2
                  writeCount := 1 }, [1])
      ∧ processEntry db0 "2024-01-15" (mkEntry "N") [] =
          .ok ({ db0 with
                  companies := db0.companies ++
                    [{ id := 1, company_name := some "N", is_signal := false }]
                  products := db0.products ++
                    [{ id := 1, company_id := 1, product_name := some "N",
                       product_metadata := mkEntry "N", launch_date := "2024-01-15",
                       twitter_link := none, linkedin_link := none,
                       is_social_media := false, status := 0 }]
                  nextCompanyId := 2
                  nextProductId := 2
                  writeCount := 2 }, [1]) :=
  ⟨claim_c5_signal_exclusion.1 dbS "2024-01-15" (mkEntry "S") []
      { id := 1, company_name := some "S", is_signal := true } (by decide) rfl rfl rfl,
   claim_c5_signal_exclusion.2.1 dbNS "2024-01-15" (mkEntry "T") []
      { id := 1, company_name := some "T", is_signal := false } (by decide) rfl rfl rfl rfl,
   claim_c5_signal_exclusion.2.2 db0 "2024-01-15" (mkEntry "N") []
      (by decide) rfl rfl rfl⟩

/-- C9: with `limit = 1` and a first page of two entries, the controller
processes the whole page (both entries go through the per-entry body),
then persists a single checkpoint update with the page's observed
`(endCursor, hasNextPage)` — not a forced `hasMore = false` — and halts:
the result does not depend on any later page, and no limit check happens
mid-page. -/
theorem claim_c9_limit_checked_after_full_page :
    ∀ (date : String) (e1 e2 : Entry) (cur : Option String) (hnp : Bool)
      (rest : List ScrapeResult) (db : DB),
      (get_or_create_scrape_progress db date).2.has_next_page = true →
      scrape_producthunt_only
          ({ products := [e1, e2], endCursor := cur, hasNextPage := hnp } :: rest)
          date (some 1) db =
        (match processProducts (get_or_create_scrape_progress db date).1 date [e1, e2] [] with
         | .error d => .error d
         | .ok (db2, ids) =>
           match update_scrape_progress db2 date cur hnp with
           | .error d => .error d
           | .ok db3 => .ok (db3, ids)) := by
  intro date e1 e2 cur hnp rest db hnext
  unfold scrape_producthunt_only
  dsimp only
  rw [hnext]
  simp only [Bool.not_true, Bool.false_eq_true, if_false]
  unfold crawlLoop
  simp only [List.isEmpty_cons, Bool.false_eq_true, if_false]
  cases hpp : processProducts (get_or_create_scrape_progress db date).1 date [e1, e2] [] with
  | error d => rfl
  | ok pr =>
    obtain ⟨db2, ids⟩ := pr
    dsimp only
    cases hup : update_scrape_progress db2 date cur hnp with
    | error d => rfl
    | ok db3 =>
      dsimp only
      rw [if_pos]
      constructor
      · rfl
      · simp [pyTruthy]

/-- C9 witness: limit 1, first page A, B with cursor c1 and more pages
announced; the run equals processing both entries then one checkpoint
update to `(c1, true)`. -/
theorem claim_c9_witness :
    scrape_producthunt_only
        ({ products := [mkEntry "A", mkEntry "B"], endCursor := some "c1",
           hasNextPage := true } :: [])
        "2024-01-15" (some 1) db0 =
      (match processProducts (get_or_create_scrape_progress db0 "2024-01-15").1
          "2024-01-15" [mkEntry "A", mkEntry "B"] [] with
       | .error d => .error d
       | .ok (db2, ids) =>
         match update_scrape_progress db2 "2024-01-15" (some "c1") true with
         | .error d => .error d
         | .ok db3 => .ok (db3, ids)) :=
  claim_c9_limit_checked_after_full_page "2024-01-15" (mkEntry "A") (mkEntry "B")
    (some "c1") true [] db0 rfl

/-- C10: the streamlined entry point never touches the per-date
checkpoint: whatever the upstream does and however the run ends, the
`progress` table after the call is exactly the one before (so the path
is not resumable and never marks a date exhausted); and the client-side
pagination — which takes no database input at all — always issues its
first request with a null cursor (the ghost request log starts with
`none`), regardless of any stored progress. -/
theorem claim_c10_streamlined_ignores_checkpoint :
    ∀ (upstream : Nat → Upstream) (date : String) (maxp : Option Nat) (db : DB),
      (resDb (scrape_producthunt_date_streamlined upstream date maxp db)).progress
          = db.progress
        ∧ ((scrape_all_products_for_date upstream maxp).2.2).head? = some none := by
  intro upstream date maxp db
  constructor
  · unfold scrape_producthunt_date_streamlined
    dsimp only
    split
    · rfl
    · exact processProducts_progress _ db date []
  · unfold scrape_all_products_for_date
    show ((scrapeAllAux upstream maxp (999 + 1) initPHState 0 [] none true 1 []).2.2).head?
      = some none
    unfold scrapeAllAux
    rw [if_neg (by decide)]
    dsimp only
    split <;>
      (split
       · simp
       · split
         · simp
         · split
           · simp
           · exact scrapeAllAux_head upstream maxp 999 _ _ _ _ _ _ none [])

end JC
